import Mathlib

set_option autoImplicit false

namespace Automaion

/-!
Shallow embedding of the request-scoped structured logging pipeline of the
`app` package: `app/logging_config.py` (context variable, JSON and text
formatters, `setup_logging`, `LoggerAdapter`, `get_logger_with_context`) and
the request middleware `log_requests` of `app/main.py`.

Machine-level conventions: Python dicts over string keys are association
lists with insertion-order semantics (`dictSet` overwrites in place,
`dictUpdate` folds `dictSet`); `json.dumps` is modelled by `dumps`, which
fails exactly on values that the default encoder rejects; raising Python
code is modelled with `Except`.
-/

/-- Python runtime values that can appear in a log extras mapping:
JSON-serializable scalars, plus `obj`, an arbitrary object that the default
`json.dumps` encoder rejects with a TypeError. -/
inductive PyValue where
  | str (s : String)
  | int (n : Int)
  | bool (b : Bool)
  | pynone
  | obj (id : Nat)
  deriving DecidableEq, Repr

/-- A Python dict with string keys, as an insertion-ordered association list. -/
abbrev PyDict := List (String × PyValue)

/-- The list of keys of a dict, in order. -/
def dictKeys (d : PyDict) : List String := d.map Prod.fst

/-- Lookup of a key, as Python `d[k]` / `k in d`. -/
def dictGet : PyDict → String → Option PyValue
  | [], _ => none
  | p :: d, k => if p.1 = k then some p.2 else dictGet d k

/-- Python `d[k] = v`: overwrite in place when the key exists, append otherwise. -/
def dictSet (d : PyDict) (k : String) (v : PyValue) : PyDict :=
  if k ∈ dictKeys d then
    d.map (fun p => if p.1 = k then (p.1, v) else p)
  else
    d ++ [(k, v)]

/-- Python `d.update(e)`: fold `dictSet` over the entries of `e`. -/
def dictUpdate (d e : PyDict) : PyDict :=
  e.foldl (fun acc p => dictSet acc p.1 p.2) d

/-- JSON string escaping for the characters the claims can meet. -/
def jsonEscapeChar (c : Char) : String :=
  if c = '\\' then "\\\\"
  else if c = '\"' then "\\\""
  else if c = '\n' then "\\n"
  else if c = '\t' then "\\t"
  else if c = '\r' then "\\r"
  else String.singleton c

/-- Escape a whole string for inclusion in a JSON document. -/
def jsonEscape (s : String) : String :=
  String.join (s.toList.map jsonEscapeChar)

/-- A JSON string literal. -/
def jsonStr (s : String) : String := "\"" ++ jsonEscape s ++ "\""

/-- Serialization of a single value by the default `json.dumps` encoder:
scalars succeed, a plain object raises TypeError. -/
def dumpValue : PyValue → Except String String
  | .str s => .ok (jsonStr s)
  | .int n => .ok (toString n)
  | .bool b => .ok (if b then "true" else "false")
  | .pynone => .ok "null"
  | .obj _ => .error "Object of type object is not JSON serializable"

/-- Serialization of one key/value entry. -/
def dumpEntry (p : String × PyValue) : Except String String :=
  match dumpValue p.2 with
  | .error e => .error e
  | .ok v => .ok (jsonStr p.1 ++ ": " ++ v)

/-- Serialization of all entries, failing on the first bad value. -/
def dumpEntries : PyDict → Except String (List String)
  | [] => .ok []
  | p :: d =>
    match dumpEntry p with
    | .error e => .error e
    | .ok s =>
      match dumpEntries d with
      | .error e => .error e
      | .ok rest => .ok (s :: rest)

/-- `json.dumps` on a dict with string keys. -/
def dumps (d : PyDict) : Except String String :=
  match dumpEntries d with
  | .error e => .error e
  | .ok entries => .ok ("\x7b" ++ String.intercalate ", " entries ++ "\x7d")

/-- Whether the default encoder accepts a value. -/
def serializable : PyValue → Bool
  | .obj _ => false
  | _ => true

/-- Python truthiness of an optional string, as in `if request_id:` —
both None and the empty string are falsy. -/
def pyTruthy : Option String → Bool
  | none => false
  | some s => s ≠ ""

/-- Python str.upper on one ASCII character (the configuration strings are
ASCII). -/
def pyCharUpper (c : Char) : Char :=
  if 'a' ≤ c ∧ c ≤ 'z' then Char.ofNat (c.toNat - 32) else c

/-- Python str.lower on one ASCII character. -/
def pyCharLower (c : Char) : Char :=
  if 'A' ≤ c ∧ c ≤ 'Z' then Char.ofNat (c.toNat + 32) else c

/-- Python str.upper. -/
def pyUpper (s : String) : String := String.mk (s.data.map pyCharUpper)

/-- Python str.lower. -/
def pyLower (s : String) : String := String.mk (s.data.map pyCharLower)

/-- `logging.getLevelName` restricted to the numeric levels used here. -/
def getLevelName (n : Nat) : String :=
  if n = 50 then "CRITICAL"
  else if n = 40 then "ERROR"
  else if n = 30 then "WARNING"
  else if n = 20 then "INFO"
  else if n = 10 then "DEBUG"
  else if n = 0 then "NOTSET"
  else "Level " ++ toString n

/-!
Correlation Context: `request_id_var = ContextVar("request_id", default=None)`.
Python contextvars give every concurrent unit (OS thread or asyncio task —
asyncio runs every task in its own copy of the Context) an independent slot
for each ContextVar; `ContextVar.set` mutates only the slot of the calling
unit. The state is therefore a map from a task identifier to the value of
`request_id_var` in that task.
-/

/-- The per-task values of `request_id_var`; the default is None. -/
structure CtxState where
  vals : Nat → Option String

/-- The state before any task has called set: every task reads the default None. -/
def CtxState.initial : CtxState := ⟨fun _ => none⟩

/-- `set_request_id` executed by task `t`: `request_id_var.set(request_id)`. -/
def set_request_id (t : Nat) (rid : String) (s : CtxState) : CtxState :=
  ⟨fun u => if u = t then some rid else s.vals u⟩

/-- `clear_request_id` executed by task `t`: `request_id_var.set(None)`. -/
def clear_request_id (t : Nat) (s : CtxState) : CtxState :=
  ⟨fun u => if u = t then none else s.vals u⟩

/-- `get_request_id` executed by task `t`: `request_id_var.get()`. -/
def get_request_id (t : Nat) (s : CtxState) : Option String :=
  s.vals t

/-!
Log records. `Logger.makeRecord` copies every entry of the caller-supplied
`extra` mapping onto the record as attributes. `JSONFormatter.format` only
consults the attribute named `extra_fields`, which in this code base is set
exclusively by `LoggerAdapter.process` and is always a dict. The `extra`
argument of a logging call is therefore modelled as a base dict of scalar
attributes plus an optional dict-valued `extra_fields` entry.
-/

/-- The `extra` keyword argument of a logging call. -/
structure ExtraArg where
  base : PyDict
  extraFields : Option PyDict
  deriving DecidableEq, Repr

/-- An `extra` argument with no entries. -/
def ExtraArg.empty : ExtraArg := ⟨[], none⟩

/-- A `logging.LogRecord` as far as the formatters consult it:
logger name, numeric level, rendered message, the attributes copied from
`extra`, and the rendered exception text when `exc_info` was passed. -/
structure LogRecord where
  name : String
  levelno : Nat
  message : String
  attrs : PyDict
  extra_fields : Option PyDict
  excText : Option String
  deriving DecidableEq, Repr

/-- `Logger.makeRecord`: copy the `extra` mapping onto the record. -/
def makeRecord (name : String) (levelno : Nat) (message : String)
    (extra : Option ExtraArg) (excText : Option String) : LogRecord :=
  { name := name
    levelno := levelno
    message := message
    attrs := (extra.getD ExtraArg.empty).base
    extra_fields := (extra.getD ExtraArg.empty).extraFields
    excText := excText }

/-- The dict built by `JSONFormatter.format` before `json.dumps`:
fixed keys timestamp, level, logger, message; then `request_id` only when the
context value is truthy; then the merged `extra_fields`; then `exception`
only when the record carries exception info. -/
def buildLogData (now : String) (requestId : Option String) (r : LogRecord) : PyDict :=
  let d : PyDict :=
    [("timestamp", .str now), ("level", .str (getLevelName r.levelno)),
     ("logger", .str r.name), ("message", .str r.message)]
  let d := if pyTruthy requestId then dictSet d "request_id" (.str (requestId.getD "")) else d
  let d := match r.extra_fields with
    | some e => dictUpdate d e
    | none => d
  match r.excText with
  | some tb => dictSet d "exception" (.str tb)
  | none => d

/-- `JSONFormatter.format`: serialize the built dict; `json.dumps` raises
TypeError on unserializable values, modelled as the error case. -/
def JSONFormatter.format (now : String) (requestId : Option String)
    (r : LogRecord) : Except String String :=
  dumps (buildLogData now requestId r)

/-- `TextFormatter` output: asctime - name - levelname - message, with the
exception text appended on a new line when present; never raises. -/
def TextFormatter.format (asctime : String) (r : LogRecord) : Except String String :=
  .ok (asctime ++ " - " ++ r.name ++ " - " ++ getLevelName r.levelno ++ " - "
        ++ r.message
        ++ (match r.excText with
            | some tb => "\n" ++ tb
            | none => ""))

/-- Which formatter `setup_logging` installed. -/
inductive FormatterKind where
  | json
  | text
  deriving DecidableEq, Repr

/-- Dispatch to the installed formatter. -/
def formatRecord (fk : FormatterKind) (now : String) (requestId : Option String)
    (r : LogRecord) : Except String String :=
  match fk with
  | .json => JSONFormatter.format now requestId r
  | .text => TextFormatter.format now r

/-!
Logging sink: the root logger level, its handler list (each handler has a
level and a formatter, the stream is always stdout), and the explicitly set
levels of named loggers.
-/

/-- A `StreamHandler` on stdout: its level and formatter. -/
structure Handler where
  level : Nat
  formatter : FormatterKind
  deriving DecidableEq, Repr

/-- The process-wide logging state. -/
structure LoggingState where
  rootLevel : Nat
  handlers : List Handler
  loggerLevels : List (String × Nat)
  deriving DecidableEq, Repr

/-- The state before `setup_logging`: root at the default WARNING, no
handlers, no per-logger levels. -/
def LoggingState.initial : LoggingState := ⟨30, [], []⟩

/-- An attribute of the `logging` module: a numeric level or a string. -/
inductive PyAttr where
  | int (n : Nat)
  | str (s : String)
  deriving DecidableEq, Repr

/-- The all-uppercase attributes of the `logging` module, the only names an
uppercased lookup can hit: the level constants, and BASIC_FORMAT, whose
value is a format string, not a level. -/
def loggingModuleAttr (name : String) : Option PyAttr :=
  if name = "CRITICAL" then some (.int 50)
  else if name = "FATAL" then some (.int 50)
  else if name = "ERROR" then some (.int 40)
  else if name = "WARNING" then some (.int 30)
  else if name = "WARN" then some (.int 30)
  else if name = "INFO" then some (.int 20)
  else if name = "DEBUG" then some (.int 10)
  else if name = "NOTSET" then some (.int 0)
  else if name = "BASIC_FORMAT" then some (.str "%(levelname)s:%(name)s:%(message)s")
  else none

/-- `getattr(logging, name, logging.INFO)`. -/
def getattrLoggingLevel (name : String) : PyAttr :=
  (loggingModuleAttr name).getD (.int 20)

/-- `logging._nameToLevel`: the registered level names. -/
def levelNameToNum (s : String) : Option Nat :=
  if s = "CRITICAL" then some 50
  else if s = "FATAL" then some 50
  else if s = "ERROR" then some 40
  else if s = "WARNING" then some 30
  else if s = "WARN" then some 30
  else if s = "INFO" then some 20
  else if s = "DEBUG" then some 10
  else if s = "NOTSET" then some 0
  else none

/-- `logging._checkLevel` as used by `setLevel`: an int passes through, a
string must be a registered level name, anything else raises ValueError. -/
def checkLevel : PyAttr → Except String Nat
  | .int n => .ok n
  | .str s =>
    match levelNameToNum s with
    | some n => .ok n
    | none => .error ("Unknown level: " ++ s)

/-- `logging.getLogger(name).setLevel(n)` on the table of named loggers. -/
def setLoggerLevel (ls : List (String × Nat)) (name : String) (n : Nat) :
    List (String × Nat) :=
  if name ∈ ls.map Prod.fst then
    ls.map (fun p => if p.1 = name then (p.1, n) else p)
  else
    ls ++ [(name, n)]

/-- The two settings `setup_logging` reads. -/
structure AppSettings where
  log_level : String
  log_format : String
  deriving DecidableEq, Repr

/-- The formatter chosen from the settings: JSON exactly when the format
string lowercases to json, text otherwise. -/
def fmtOf (s : AppSettings) : FormatterKind :=
  if pyLower s.log_format = "json" then .json else .text

/-- `setup_logging`: resolve the level via getattr with an INFO default,
choose the formatter, set the root level (setLevel can raise; the source
calls setLevel twice with the same resolved value, for the root logger and
for the handler, so a single check decides both), clear the handler list
and install one stdout handler at the same level, then pin uvicorn.access
to WARNING and uvicorn.error to INFO. -/
def setup_logging (s : AppSettings) (st : LoggingState) : Except String LoggingState :=
  match checkLevel (getattrLoggingLevel (pyUpper s.log_level)) with
  | .error e => .error e
  | .ok n =>
    .ok { rootLevel := n
          handlers := [⟨n, fmtOf s⟩]
          loggerLevels :=
            setLoggerLevel (setLoggerLevel st.loggerLevels "uvicorn.access" 30)
              "uvicorn.error" 20 }

/-- First-match lookup in the table of named logger levels. -/
def lookupLevel : List (String × Nat) → String → Option Nat
  | [], _ => none
  | p :: ls, name => if p.1 = name then some p.2 else lookupLevel ls name

/-- The effective level of a named logger: its own explicitly set level, or
the root level (named loggers in this code base never set a level of 0). -/
def effectiveLevel (st : LoggingState) (loggerName : String) : Nat :=
  match lookupLevel st.loggerLevels loggerName with
  | some n => n
  | none => st.rootLevel

/-- `StreamHandler.emit` for one handler: drop the record below the handler
level; format it and write one newline-terminated line; a formatting error
is caught by handleError and produces no line and no exception. -/
def handlerEmit (h : Handler) (now : String) (requestId : Option String)
    (r : LogRecord) : List String :=
  if h.level ≤ r.levelno then
    match formatRecord h.formatter now requestId r with
    | .ok line => [line ++ "\n"]
    | .error _ => []
  else []

/-- One logging call: `isEnabledFor` checks the effective level of the named
logger, then the record propagates to the root handlers, each filtering on
its own level. Returns the lines written to stdout. -/
def emitLogCall (st : LoggingState) (now : String) (requestId : Option String)
    (r : LogRecord) : List String :=
  if effectiveLevel st r.name ≤ r.levelno then
    (st.handlers.map (fun h => handlerEmit h now requestId r)).flatten
  else []

/-!
`LoggerAdapter` and `get_logger_with_context` of `app/logging_config.py`.
-/

/-- `LoggerAdapter.process`: default the `extra` kwarg to an empty dict, copy
it, and store the copy under the `extra_fields` key of the kwarg. The
`selfExtra` parameter is the context dict the adapter was constructed with;
the body never reads it. -/
def LoggerAdapter.process (_selfExtra : PyDict) (msg : String)
    (kwargsExtra : Option PyDict) : String × ExtraArg :=
  let extra := kwargsExtra.getD []
  let extra_fields := extra
  (msg, ⟨extra, some extra_fields⟩)

/-- A logging call through the adapter returned by
`get_logger_with_context(name, **context)`: process the kwargs, then build
the record. -/
def adapterCallRecord (context : PyDict) (name : String) (levelno : Nat)
    (msg : String) (kwargsExtra : Option PyDict) (excText : Option String) :
    LogRecord :=
  let processed := LoggerAdapter.process context msg kwargsExtra
  makeRecord name levelno processed.1 (some processed.2) excText

/-!
The request middleware `log_requests` of `app/main.py`. The statements
before its try block (uuid generation, `set_request_id`, the initial
`logger.info` with fixed serializable extras, `time.time`) cannot raise:
Python logging catches formatting and write errors inside `Handler.emit`
via handleError and never propagates them to the caller of `logger.info`.
The control flow therefore has exactly two paths, selected by the handler
outcome; the `finally` clause runs `clear_request_id` once on each. Time is
sampled in integer milliseconds at entry and at exit.
-/

/-- What one run of the middleware did: the value returned or exception
re-raised, the records it emitted, and how often it called
`set_request_id` and `clear_request_id`. -/
structure MWTrace where
  result : Except String Nat
  events : List LogRecord
  installedRid : String
  setCalls : Nat
  clearCalls : Nat
  deriving Repr

/-- The client host field of the entry record. -/
def hostValue : Option String → PyValue
  | some h => .str h
  | none => .pynone

/-- `log_requests`: set the request id, log the entry event, run the
handler; on success log the completion event with status and duration and
return the response; on an exception log an ERROR event carrying the
failure message, duration and stack text, then re-raise; clear the request
id in the `finally` clause on both paths. -/
def log_requests (rid method path : String) (clientHost : Option String)
    (t0 t1 : Int) (handler : Except String Nat) (tb : String) : MWTrace :=
  let received := makeRecord "app.main" 20 "Request received"
    (some ⟨[("method", .str method), ("path", .str path),
            ("client_host", hostValue clientHost)], none⟩) none
  match handler with
  | .ok status =>
    let duration_ms : Int := t1 - t0
    let completed := makeRecord "app.main" 20 "Request completed"
      (some ⟨[("method", .str method), ("path", .str path),
              ("status_code", .int status), ("duration_ms", .int duration_ms)],
             none⟩) none
    ⟨.ok status, [received, completed], rid, 1, 1⟩
  | .error e =>
    let duration_ms : Int := t1 - t0
    let failed := makeRecord "app.main" 40 ("Request failed: " ++ e)
      (some ⟨[("method", .str method), ("path", .str path),
              ("duration_ms", .int duration_ms), ("error", .str e)], none⟩)
      (some tb)
    ⟨.error e, [received, failed], rid, 1, 1⟩

/-!
Library lemmas about the dict operations and the JSON encoder.
-/

/-- The key list of a cons. -/
theorem dictKeys_cons (p : String × PyValue) (d : PyDict) :
    dictKeys (p :: d) = p.1 :: dictKeys d := rfl

/-- The key list of an append. -/
theorem dictKeys_append (d e : PyDict) :
    dictKeys (d ++ e) = dictKeys d ++ dictKeys e := by
  simp [dictKeys]

/-- Mapping the overwrite function does not change the key list. -/
theorem dictKeys_map_overwrite (d : PyDict) (k : String) (v : PyValue) :
    dictKeys (d.map (fun p => if p.1 = k then (p.1, v) else p)) = dictKeys d := by
  induction d with
  | nil => rfl
  | cons p d ih =>
    by_cases h : p.1 = k <;>
      simp only [List.map_cons, if_pos, if_neg, h, dictKeys_cons, ite_true, ite_false] <;>
      rw [ih]

/-- Membership in the key list after a set. -/
theorem mem_dictKeys_dictSet (d : PyDict) (k : String) (v : PyValue) (a : String) :
    a ∈ dictKeys (dictSet d k v) ↔ a ∈ dictKeys d ∨ a = k := by
  unfold dictSet
  by_cases h : k ∈ dictKeys d
  · rw [if_pos h, dictKeys_map_overwrite]
    constructor
    · exact Or.inl
    · rintro (ha | rfl)
      · exact ha
      · exact h
  · rw [if_neg h, dictKeys_append]
    show a ∈ dictKeys d ++ [k] ↔ _
    rw [List.mem_append, List.mem_singleton]

/-- Looking up the overwritten key in the mapped list. -/
theorem dictGet_overwrite_self (d : PyDict) (k : String) (v : PyValue)
    (h : k ∈ dictKeys d) :
    dictGet (d.map (fun p => if p.1 = k then (p.1, v) else p)) k = some v := by
  induction d with
  | nil => cases h
  | cons p d ih =>
    rw [dictKeys_cons, List.mem_cons] at h
    by_cases hp : p.1 = k
    · simp [dictGet, hp]
    · have hk : k ∈ dictKeys d := h.resolve_left (fun hc => hp hc.symm)
      simp only [List.map_cons, if_neg hp, dictGet]
      exact ih hk

/-- Looking up the appended key when it was absent. -/
theorem dictGet_append_self (d : PyDict) (k : String) (v : PyValue)
    (h : ¬ k ∈ dictKeys d) :
    dictGet (d ++ [(k, v)]) k = some v := by
  induction d with
  | nil => simp [dictGet]
  | cons p d ih =>
    rw [dictKeys_cons, List.mem_cons] at h
    push_neg at h
    have hp : ¬ p.1 = k := fun hc => h.1 hc.symm
    simp only [List.cons_append, dictGet, if_neg hp]
    exact ih h.2

/-- Looking up the key just set. -/
theorem dictGet_dictSet_self (d : PyDict) (k : String) (v : PyValue) :
    dictGet (dictSet d k v) k = some v := by
  unfold dictSet
  by_cases h : k ∈ dictKeys d
  · rw [if_pos h]
    exact dictGet_overwrite_self d k v h
  · rw [if_neg h]
    exact dictGet_append_self d k v h

/-- Overwriting one key does not change the lookup of another. -/
theorem dictGet_overwrite_ne (d : PyDict) (k : String) (v : PyValue) (a : String)
    (hak : a ≠ k) :
    dictGet (d.map (fun p => if p.1 = k then (p.1, v) else p)) a = dictGet d a := by
  induction d with
  | nil => rfl
  | cons p d ih =>
    by_cases hp : p.1 = k
    · have hpa : ¬ p.1 = a := fun hc => hak (hc.symm.trans hp)
      simp only [List.map_cons, if_pos hp, dictGet, if_neg hpa]
      exact ih
    · by_cases hpa : p.1 = a
      · subst hpa
        simp [dictGet, hp]
      · simp only [List.map_cons, if_neg hp, dictGet, if_neg hpa]
        exact ih

/-- Appending a fresh key does not change the lookup of another. -/
theorem dictGet_append_ne (d : PyDict) (k : String) (v : PyValue) (a : String)
    (hak : a ≠ k) :
    dictGet (d ++ [(k, v)]) a = dictGet d a := by
  induction d with
  | nil =>
    have hka : ¬ k = a := fun hc => hak hc.symm
    simp [dictGet, hka]
  | cons p d ih =>
    by_cases hpa : p.1 = a
    · simp [dictGet, hpa]
    · simp only [List.cons_append, dictGet, if_neg hpa]
      exact ih

/-- Setting one key does not change the lookup of another. -/
theorem dictGet_dictSet_ne (d : PyDict) (k : String) (v : PyValue) (a : String)
    (hak : a ≠ k) : dictGet (dictSet d k v) a = dictGet d a := by
  unfold dictSet
  by_cases h : k ∈ dictKeys d
  · rw [if_pos h]
    exact dictGet_overwrite_ne d k v a hak
  · rw [if_neg h]
    exact dictGet_append_ne d k v a hak

/-- Membership in the key list after an update. -/
theorem mem_dictKeys_dictUpdate (d e : PyDict) (a : String) :
    a ∈ dictKeys (dictUpdate d e) ↔ a ∈ dictKeys d ∨ a ∈ dictKeys e := by
  induction e generalizing d with
  | nil => simp [dictUpdate, dictKeys]
  | cons q e ih =>
    show a ∈ dictKeys (dictUpdate (dictSet d q.1 q.2) e) ↔ _
    rw [ih, mem_dictKeys_dictSet, dictKeys_cons, List.mem_cons]
    tauto

/-- An update does not touch keys absent from the update mapping. -/
theorem dictGet_dictUpdate_not_mem (d e : PyDict) (a : String)
    (h : ¬ a ∈ dictKeys e) : dictGet (dictUpdate d e) a = dictGet d a := by
  induction e generalizing d with
  | nil => rfl
  | cons q e ih =>
    rw [dictKeys_cons, List.mem_cons] at h
    push_neg at h
    show dictGet (dictUpdate (dictSet d q.1 q.2) e) a = _
    rw [ih _ h.2, dictGet_dictSet_ne _ _ _ _ h.1]

/-- When the update mapping has no duplicate keys, an updated key reads back
the value the update mapping holds for it. -/
theorem dictGet_dictUpdate_mem (d e : PyDict) (a : String) (v : PyValue)
    (hnd : (dictKeys e).Nodup) (h : dictGet e a = some v) :
    dictGet (dictUpdate d e) a = some v := by
  induction e generalizing d with
  | nil => cases h
  | cons q e ih =>
    rw [dictKeys_cons, List.nodup_cons] at hnd
    show dictGet (dictUpdate (dictSet d q.1 q.2) e) a = some v
    by_cases hq : q.1 = a
    · subst hq
      rw [dictGet, if_pos rfl] at h
      rw [dictGet_dictUpdate_not_mem _ _ _ hnd.1, dictGet_dictSet_self]
      exact h
    · rw [dictGet, if_neg hq] at h
      exact ih _ hnd.2 h

/-- Every value of a set either is the written value or was already there. -/
theorem serializable_mem_dictSet (d : PyDict) (k : String) (v : PyValue)
    (hd : ∀ p ∈ d, serializable p.2 = true) (hv : serializable v = true) :
    ∀ p ∈ dictSet d k v, serializable p.2 = true := by
  intro p hp
  unfold dictSet at hp
  by_cases h : k ∈ dictKeys d
  · rw [if_pos h] at hp
    rcases List.mem_map.mp hp with ⟨q, hq, hpq⟩
    by_cases hqk : q.1 = k
    · rw [if_pos hqk] at hpq
      rw [← hpq]
      exact hv
    · rw [if_neg hqk] at hpq
      exact hpq ▸ hd q hq
  · rw [if_neg h] at hp
    rcases List.mem_append.mp hp with hp1 | hp1
    · exact hd p hp1
    · rw [List.mem_singleton.mp hp1]
      exact hv

/-- Values stay serializable through an update by serializable values. -/
theorem serializable_mem_dictUpdate (d e : PyDict)
    (hd : ∀ p ∈ d, serializable p.2 = true)
    (he : ∀ p ∈ e, serializable p.2 = true) :
    ∀ p ∈ dictUpdate d e, serializable p.2 = true := by
  induction e generalizing d with
  | nil => exact hd
  | cons q e ih =>
    show ∀ p ∈ dictUpdate (dictSet d q.1 q.2) e, _
    exact ih _
      (serializable_mem_dictSet d q.1 q.2 hd (he q (List.mem_cons_self q e)))
      (fun p hp => he p (List.mem_cons_of_mem q hp))

/-- The encoder accepts every serializable value. -/
theorem dumpValue_ok (v : PyValue) (h : serializable v = true) :
    ∃ s, dumpValue v = .ok s := by
  cases v with
  | str s => exact ⟨_, rfl⟩
  | int n => exact ⟨_, rfl⟩
  | bool b => exact ⟨_, rfl⟩
  | pynone => exact ⟨_, rfl⟩
  | obj i => exact absurd h (by simp [serializable])

/-- The encoder accepts a dict of serializable values. -/
theorem dumpEntries_ok (d : PyDict) (h : ∀ p ∈ d, serializable p.2 = true) :
    ∃ l, dumpEntries d = .ok l := by
  induction d with
  | nil => exact ⟨[], rfl⟩
  | cons p d ih =>
    rcases dumpValue_ok p.2 (h p (List.mem_cons_self p d)) with ⟨s, hs⟩
    rcases ih (fun q hq => h q (List.mem_cons_of_mem p hq)) with ⟨l, hl⟩
    refine ⟨(jsonStr p.1 ++ ": " ++ s) :: l, ?_⟩
    simp [dumpEntries, dumpEntry, hs, hl]

/-- `json.dumps` succeeds on a dict of serializable values. -/
theorem dumps_ok (d : PyDict) (h : ∀ p ∈ d, serializable p.2 = true) :
    ∃ s, dumps d = .ok s := by
  rcases dumpEntries_ok d h with ⟨l, hl⟩
  exact ⟨"\x7b" ++ String.intercalate ", " l ++ "\x7d", by unfold dumps; rw [hl]⟩

/-- All values the JSON formatter puts into the dict are serializable as
soon as the extra fields of the record are. -/
theorem serializable_buildLogData (now : String) (requestId : Option String)
    (r : LogRecord) (h : ∀ p ∈ (r.extra_fields).getD [], serializable p.2 = true) :
    ∀ p ∈ buildLogData now requestId r, serializable p.2 = true := by
  unfold buildLogData
  have h0 : ∀ p ∈ ([("timestamp", PyValue.str now),
      ("level", PyValue.str (getLevelName r.levelno)),
      ("logger", PyValue.str r.name),
      ("message", PyValue.str r.message)] : PyDict),
      serializable p.2 = true := by
    intro p hp
    simp only [List.mem_cons, List.not_mem_nil, or_false] at hp
    rcases hp with rfl | rfl | rfl | rfl <;> rfl
  have h1 : ∀ p ∈ (if pyTruthy requestId then
      dictSet [("timestamp", PyValue.str now),
        ("level", PyValue.str (getLevelName r.levelno)),
        ("logger", PyValue.str r.name),
        ("message", PyValue.str r.message)] "request_id"
        (PyValue.str (requestId.getD ""))
      else [("timestamp", PyValue.str now),
        ("level", PyValue.str (getLevelName r.levelno)),
        ("logger", PyValue.str r.name),
        ("message", PyValue.str r.message)]), serializable p.2 = true := by
    by_cases ht : pyTruthy requestId
    · rw [if_pos ht]
      exact serializable_mem_dictSet _ _ _ h0 rfl
    · rw [if_neg ht]
      exact h0
  cases hef : r.extra_fields with
  | none =>
    cases hex : r.excText with
    | none => simpa [hef, hex] using h1
    | some tb =>
      simp only [hef, hex]
      exact serializable_mem_dictSet _ _ _ h1 rfl
  | some e =>
    have he : ∀ p ∈ e, serializable p.2 = true := by
      intro p hp
      refine h p ?_
      rw [hef]
      exact hp
    cases hex : r.excText with
    | none =>
      simp only [hef, hex]
      exact serializable_mem_dictUpdate _ _ h1 he
    | some tb =>
      simp only [hef, hex]
      exact serializable_mem_dictSet _ _ _ (serializable_mem_dictUpdate _ _ h1 he) rfl

/-!
Claim theorems.
-/

/-- C1: a correlation identifier read via get in one concurrent unit never
observes a value installed via set by a different unit: a set executed by
task t leaves the value observed by every other task u unchanged. -/
theorem C1_correlation_isolation (s : CtxState) (t u : Nat) (rid : String)
    (h : t ≠ u) :
    get_request_id u (set_request_id t rid s) = get_request_id u s := by
  unfold get_request_id set_request_id
  exact if_neg (fun hc => h hc.symm)

/-- Witness for C1 at tasks 0 and 1. -/
theorem C1_correlation_isolation_witness :
    (0 : Nat) ≠ 1 ∧
      get_request_id 1 (set_request_id 0 "ab12cd34" CtxState.initial) =
        get_request_id 1 CtxState.initial :=
  ⟨by decide, C1_correlation_isolation CtxState.initial 0 1 "ab12cd34" (by decide)⟩

/-- C2: the middleware calls clear_request_id exactly once per request on
every exit path. The statements before the try block cannot raise (Python
logging swallows emission errors inside Handler.emit), so the realizable
exit paths are exactly handler success and handler failure, and the finally
clause runs clear_request_id once on each. -/
theorem C2_clear_exactly_once (rid method path : String) (clientHost : Option String)
    (t0 t1 : Int) (handler : Except String Nat) (tb : String) :
    (log_requests rid method path clientHost t0 t1 handler tb).clearCalls = 1 := by
  cases handler <;> rfl

/-- C3 as stated is false: an extras mapping holding a value the default
JSON encoder rejects makes JSONFormatter.format raise a TypeError instead
of returning a line with the offending field omitted or stringified. -/
theorem C3_counterexample :
    JSONFormatter.format "2026-01-01T00:00:00+00:00" none
      (makeRecord "app.services.oci_email_suppression" 20 "checking"
        (some ⟨[("client", PyValue.obj 0)], some [("client", PyValue.obj 0)]⟩) none)
      = Except.error "Object of type object is not JSON serializable" := by rfl

/-- The JSON formatter succeeds on any record whose extra fields the encoder
accepts, whatever optional fields are absent. -/
theorem JSONFormatter_format_ok (now : String) (requestId : Option String)
    (r : LogRecord) (h : ∀ p ∈ (r.extra_fields).getD [], serializable p.2 = true) :
    ∃ line, JSONFormatter.format now requestId r = Except.ok line := by
  unfold JSONFormatter.format
  exact dumps_ok _ (serializable_buildLogData now requestId r h)

/-- Either formatter succeeds on any record whose extra fields the encoder
accepts; the text formatter never fails at all. -/
theorem formatRecord_ok (fk : FormatterKind) (now : String) (requestId : Option String)
    (r : LogRecord) (h : ∀ p ∈ (r.extra_fields).getD [], serializable p.2 = true) :
    ∃ line, formatRecord fk now requestId r = Except.ok line := by
  cases fk with
  | json => exact JSONFormatter_format_ok now requestId r h
  | text => exact ⟨_, rfl⟩

/-- C3 amended: formatting never raises for missing optional fields (no
correlation id, no extras, no exception info, in every combination) and for
extras whose values the encoder accepts; an extras mapping holding an
unserializable value makes format raise, and the handler then drops that
record. -/
theorem C3_amended_format_never_raises (now : String) (requestId : Option String)
    (r : LogRecord) (h : ∀ p ∈ (r.extra_fields).getD [], serializable p.2 = true) :
    ∃ line, JSONFormatter.format now requestId r = Except.ok line :=
  JSONFormatter_format_ok now requestId r h

/-- Witness for C3 amended on a record with every optional field absent. -/
theorem C3_amended_format_never_raises_witness :
    (∀ p ∈ (((makeRecord "app.main" 20 "Request received" none none).extra_fields).getD []),
        serializable p.2 = true) ∧
      ∃ line, JSONFormatter.format "2026-01-01T00:00:00+00:00" none
        (makeRecord "app.main" 20 "Request received" none none) = Except.ok line :=
  ⟨fun p hp => absurd hp (List.not_mem_nil p),
    C3_amended_format_never_raises "2026-01-01T00:00:00+00:00" none
      (makeRecord "app.main" 20 "Request received" none none)
      (fun p hp => absurd hp (List.not_mem_nil p))⟩

/-- Which keys the JSON formatter dict can contain: the four fixed keys, the
request_id key when the context value is truthy, the keys of the extra
fields, and the exception key when the record carries exception info. -/
theorem mem_dictKeys_buildLogData (now : String) (rid : Option String)
    (r : LogRecord) (a : String) :
    a ∈ dictKeys (buildLogData now rid r) ↔
      (a ∈ (["timestamp", "level", "logger", "message"] : List String)
        ∨ (pyTruthy rid = true ∧ a = "request_id")
        ∨ a ∈ dictKeys ((r.extra_fields).getD [])
        ∨ (r.excText ≠ none ∧ a = "exception")) := by
  have hd0 : dictKeys [("timestamp", PyValue.str now),
      ("level", PyValue.str (getLevelName r.levelno)),
      ("logger", PyValue.str r.name),
      ("message", PyValue.str r.message)] =
      ["timestamp", "level", "logger", "message"] := rfl
  unfold buildLogData
  cases hef : r.extra_fields <;> cases hex : r.excText <;>
    by_cases ht : pyTruthy rid <;>
      simp [ht, hd0, mem_dictKeys_dictSet, mem_dictKeys_dictUpdate] <;>
      tauto

/-- C4: in JSON mode with no correlation identifier set, the emitted object
has no request_id key at all, while timestamp, level, logger and message are
always present. The extras hypothesis excludes a caller smuggling a literal
request_id extra field through the merge step, which is a different
mechanism than the correlation context. -/
theorem C4_request_id_omitted (now : String) (r : LogRecord)
    (h : ¬ "request_id" ∈ dictKeys ((r.extra_fields).getD [])) :
    ¬ "request_id" ∈ dictKeys (buildLogData now none r)
    ∧ "timestamp" ∈ dictKeys (buildLogData now none r)
    ∧ "level" ∈ dictKeys (buildLogData now none r)
    ∧ "logger" ∈ dictKeys (buildLogData now none r)
    ∧ "message" ∈ dictKeys (buildLogData now none r) := by
  refine ⟨?_, ?_, ?_, ?_, ?_⟩
  · intro hmem
    rcases (mem_dictKeys_buildLogData now none r "request_id").mp hmem with
      h1 | h2 | h3 | h4
    · exact absurd h1 (by decide)
    · exact absurd h2.1 (by decide)
    · exact h h3
    · exact absurd h4.2 (by decide)
  · exact (mem_dictKeys_buildLogData now none r "timestamp").mpr (Or.inl (by decide))
  · exact (mem_dictKeys_buildLogData now none r "level").mpr (Or.inl (by decide))
  · exact (mem_dictKeys_buildLogData now none r "logger").mpr (Or.inl (by decide))
  · exact (mem_dictKeys_buildLogData now none r "message").mpr (Or.inl (by decide))

/-- Witness for C4 on a record with no extras. -/
theorem C4_request_id_omitted_witness :
    (¬ "request_id" ∈
        dictKeys (((makeRecord "app.main" 20 "hello" none none).extra_fields).getD []))
    ∧ (¬ "request_id" ∈ dictKeys (buildLogData "ts" none (makeRecord "app.main" 20 "hello" none none))
      ∧ "timestamp" ∈ dictKeys (buildLogData "ts" none (makeRecord "app.main" 20 "hello" none none))
      ∧ "level" ∈ dictKeys (buildLogData "ts" none (makeRecord "app.main" 20 "hello" none none))
      ∧ "logger" ∈ dictKeys (buildLogData "ts" none (makeRecord "app.main" 20 "hello" none none))
      ∧ "message" ∈ dictKeys (buildLogData "ts" none (makeRecord "app.main" 20 "hello" none none))) :=
  ⟨by decide, C4_request_id_omitted "ts" (makeRecord "app.main" 20 "hello" none none) (by decide)⟩


/-- What a successful `setup_logging` run produced: root and handler at the
resolved level, exactly one handler carrying the chosen formatter, and the
two uvicorn overrides applied. -/
theorem setup_logging_ok (s : AppSettings) (st st2 : LoggingState) (n : Nat)
    (hn : checkLevel (getattrLoggingLevel (pyUpper s.log_level)) = .ok n)
    (h : setup_logging s st = .ok st2) :
    st2 = ⟨n, [⟨n, fmtOf s⟩],
      setLoggerLevel (setLoggerLevel st.loggerLevels "uvicorn.access" 30)
        "uvicorn.error" 20⟩ := by
  unfold setup_logging at h
  rw [hn] at h
  exact (Except.ok.inj h).symm

/-- The uvicorn overrides applied to an empty table. -/
theorem setup_initial_loggerLevels :
    setLoggerLevel (setLoggerLevel ([] : List (String × Nat)) "uvicorn.access" 30)
      "uvicorn.error" 20 = [("uvicorn.access", 30), ("uvicorn.error", 20)] := by
  decide

/-- Emission through a state with a single handler. -/
theorem emitLogCall_single (rl n : Nat) (fk : FormatterKind)
    (ls : List (String × Nat)) (now : String) (rid : Option String) (r : LogRecord) :
    emitLogCall ⟨rl, [⟨n, fk⟩], ls⟩ now rid r =
      if effectiveLevel ⟨rl, [⟨n, fk⟩], ls⟩ r.name ≤ r.levelno then
        handlerEmit ⟨n, fk⟩ now rid r
      else [] := by
  unfold emitLogCall
  by_cases h : effectiveLevel ⟨rl, [⟨n, fk⟩], ls⟩ r.name ≤ r.levelno <;> simp [h]

/-- A logger other than the two pinned uvicorn channels takes the root level. -/
theorem effectiveLevel_other (rl : Nat) (hs : List Handler) (name : String)
    (h1 : name ≠ "uvicorn.access") (h2 : name ≠ "uvicorn.error") :
    effectiveLevel ⟨rl, hs, [("uvicorn.access", 30), ("uvicorn.error", 20)]⟩ name = rl := by
  simp [effectiveLevel, lookupLevel, Ne.symm h1, Ne.symm h2]

/-- Everything emission through a single-handler state can do: at most one
line per event, any line comes from that handler formatter, and an event
passing both level gates with encoder-accepted extras yields exactly one
line. -/
theorem emitLogCall_single_spec (rl n : Nat) (fk : FormatterKind)
    (ls : List (String × Nat)) (now : String) (rid : Option String) (r : LogRecord) :
    (emitLogCall ⟨rl, [⟨n, fk⟩], ls⟩ now rid r).length ≤ 1
    ∧ (emitLogCall ⟨rl, [⟨n, fk⟩], ls⟩ now rid r = []
        ∨ ∃ l, formatRecord fk now rid r = .ok l
            ∧ emitLogCall ⟨rl, [⟨n, fk⟩], ls⟩ now rid r = [l ++ "\n"])
    ∧ (effectiveLevel ⟨rl, [⟨n, fk⟩], ls⟩ r.name ≤ r.levelno → n ≤ r.levelno →
        (∀ p ∈ (r.extra_fields).getD [], serializable p.2 = true) →
        (emitLogCall ⟨rl, [⟨n, fk⟩], ls⟩ now rid r).length = 1) := by
  rw [emitLogCall_single]
  by_cases hL : effectiveLevel ⟨rl, [⟨n, fk⟩], ls⟩ r.name ≤ r.levelno
  · rw [if_pos hL]
    unfold handlerEmit
    by_cases hn : n ≤ r.levelno
    · rw [if_pos hn]
      refine ⟨?_, ?_, ?_⟩
      · cases hf : formatRecord fk now rid r <;> simp
      · cases hf : formatRecord fk now rid r with
        | error e => exact Or.inl rfl
        | ok l => exact Or.inr ⟨l, rfl, rfl⟩
      · intro hL2 hn2 hser
        rcases formatRecord_ok fk now rid r hser with ⟨l, hl⟩
        rw [hl]
        rfl
    · rw [if_neg hn]
      exact ⟨by simp, Or.inl rfl, fun hL2 hn2 hser => absurd hn2 hn⟩
  · rw [if_neg hL]
    exact ⟨by simp, Or.inl rfl, fun hL2 hn2 hser => absurd hL2 hL⟩

/-- C5: running setup twice replaces the previously installed handler
instead of accumulating a second one: after the second run the root logger
has exactly the one handler of the second run, every event yields at most
one output line, any line it yields is produced by the second run formatter,
and an event passing both level gates whose record the formatter accepts
yields exactly one line. -/
theorem C5_setup_twice_replaces (s1 s2 : AppSettings) (st0 st1 st2 : LoggingState)
    (n2 : Nat) (now : String) (rid : Option String) (r : LogRecord)
    (_hfirst : setup_logging s1 st0 = .ok st1)
    (h2 : setup_logging s2 st1 = .ok st2)
    (hn2 : checkLevel (getattrLoggingLevel (pyUpper s2.log_level)) = .ok n2) :
    st2.handlers = [⟨n2, fmtOf s2⟩]
    ∧ (emitLogCall st2 now rid r).length ≤ 1
    ∧ (emitLogCall st2 now rid r = []
        ∨ ∃ l, formatRecord (fmtOf s2) now rid r = .ok l
            ∧ emitLogCall st2 now rid r = [l ++ "\n"])
    ∧ (effectiveLevel st2 r.name ≤ r.levelno → n2 ≤ r.levelno →
        (∀ p ∈ (r.extra_fields).getD [], serializable p.2 = true) →
        (emitLogCall st2 now rid r).length = 1) := by
  have hst2 := setup_logging_ok s2 st1 st2 n2 hn2 h2
  subst hst2
  have hspec := emitLogCall_single_spec n2 n2 (fmtOf s2)
    (setLoggerLevel (setLoggerLevel st1.loggerLevels "uvicorn.access" 30)
      "uvicorn.error" 20) now rid r
  exact ⟨rfl, hspec.1, hspec.2.1, hspec.2.2⟩

/-- Witness for C5: DEBUG text setup followed by INFO json setup, observed
on an INFO record of an application logger. -/
theorem C5_setup_twice_replaces_witness :
    (setup_logging ⟨"DEBUG", "text"⟩ LoggingState.initial =
        .ok ⟨10, [⟨10, FormatterKind.text⟩], [("uvicorn.access", 30), ("uvicorn.error", 20)]⟩
      ∧ setup_logging ⟨"INFO", "json"⟩
          ⟨10, [⟨10, FormatterKind.text⟩], [("uvicorn.access", 30), ("uvicorn.error", 20)]⟩ =
        .ok ⟨20, [⟨20, FormatterKind.json⟩], [("uvicorn.access", 30), ("uvicorn.error", 20)]⟩
      ∧ checkLevel (getattrLoggingLevel (pyUpper "INFO")) = .ok 20)
    ∧ ((⟨20, [⟨20, FormatterKind.json⟩],
          [("uvicorn.access", 30), ("uvicorn.error", 20)]⟩ : LoggingState).handlers =
        [⟨20, fmtOf ⟨"INFO", "json"⟩⟩]
      ∧ (emitLogCall ⟨20, [⟨20, FormatterKind.json⟩], [("uvicorn.access", 30), ("uvicorn.error", 20)]⟩
          "ts" none (makeRecord "app.main" 20 "hello" none none)).length ≤ 1
      ∧ (emitLogCall ⟨20, [⟨20, FormatterKind.json⟩], [("uvicorn.access", 30), ("uvicorn.error", 20)]⟩
            "ts" none (makeRecord "app.main" 20 "hello" none none) = []
          ∨ ∃ l, formatRecord (fmtOf ⟨"INFO", "json"⟩) "ts" none
                (makeRecord "app.main" 20 "hello" none none) = .ok l
              ∧ emitLogCall ⟨20, [⟨20, FormatterKind.json⟩], [("uvicorn.access", 30), ("uvicorn.error", 20)]⟩
                  "ts" none (makeRecord "app.main" 20 "hello" none none) = [l ++ "\n"])
      ∧ (effectiveLevel ⟨20, [⟨20, FormatterKind.json⟩], [("uvicorn.access", 30), ("uvicorn.error", 20)]⟩
            (makeRecord "app.main" 20 "hello" none none).name ≤
            (makeRecord "app.main" 20 "hello" none none).levelno →
          20 ≤ (makeRecord "app.main" 20 "hello" none none).levelno →
          (∀ p ∈ ((makeRecord "app.main" 20 "hello" none none).extra_fields).getD [],
            serializable p.2 = true) →
          (emitLogCall ⟨20, [⟨20, FormatterKind.json⟩], [("uvicorn.access", 30), ("uvicorn.error", 20)]⟩
            "ts" none (makeRecord "app.main" 20 "hello" none none)).length = 1)) :=
  ⟨⟨rfl, rfl, rfl⟩,
    C5_setup_twice_replaces ⟨"DEBUG", "text"⟩ ⟨"INFO", "json"⟩ LoggingState.initial
      ⟨10, [⟨10, FormatterKind.text⟩], [("uvicorn.access", 30), ("uvicorn.error", 20)]⟩
      ⟨20, [⟨20, FormatterKind.json⟩], [("uvicorn.access", 30), ("uvicorn.error", 20)]⟩
      20 "ts" none (makeRecord "app.main" 20 "hello" none none) rfl rfl rfl⟩

/-- C6 fails as stated on the pinned third-party channels: with the
configured minimum at INFO, an INFO-level call through the uvicorn.access
logger — which setup pins to WARNING — produces no output line, although
the event is at the configured minimum. -/
theorem C6_counterexample :
    setup_logging ⟨"INFO", "json"⟩ LoggingState.initial =
        .ok ⟨20, [⟨20, FormatterKind.json⟩], [("uvicorn.access", 30), ("uvicorn.error", 20)]⟩
    ∧ emitLogCall ⟨20, [⟨20, FormatterKind.json⟩], [("uvicorn.access", 30), ("uvicorn.error", 20)]⟩
        "ts" none (makeRecord "uvicorn.access" 20 "GET /health" none none) = [] :=
  ⟨rfl, rfl⟩

/-- C6 amended: after setup from a fresh state, for events on any logger
other than the pinned uvicorn.access and uvicorn.error channels, and whose
extra fields the encoder accepts: an event below the configured minimum
produces no output line, and an event at or above it produces exactly one
newline-terminated line through the installed formatter. -/
theorem C6_min_severity_filtering (s : AppSettings) (st : LoggingState) (n : Nat)
    (now : String) (rid : Option String) (r : LogRecord)
    (hsetup : setup_logging s LoggingState.initial = .ok st)
    (hn : checkLevel (getattrLoggingLevel (pyUpper s.log_level)) = .ok n)
    (h1 : r.name ≠ "uvicorn.access") (h2 : r.name ≠ "uvicorn.error")
    (hser : ∀ p ∈ (r.extra_fields).getD [], serializable p.2 = true) :
    (r.levelno < n → emitLogCall st now rid r = [])
    ∧ (n ≤ r.levelno → ∃ l, formatRecord (fmtOf s) now rid r = .ok l
        ∧ emitLogCall st now rid r = [l ++ "\n"]) := by
  have hst := setup_logging_ok s LoggingState.initial st n hn hsetup
  rw [show LoggingState.initial.loggerLevels = ([] : List (String × Nat)) from rfl,
    setup_initial_loggerLevels] at hst
  subst hst
  rw [emitLogCall_single, effectiveLevel_other n _ r.name h1 h2]
  constructor
  · intro hlt
    rw [if_neg (by omega)]
  · intro hle
    rcases formatRecord_ok (fmtOf s) now rid r hser with ⟨l, hl⟩
    refine ⟨l, hl, ?_⟩
    rw [if_pos hle]
    unfold handlerEmit
    rw [if_pos hle, hl]

/-- Witness for C6 amended: INFO json settings, an INFO record of an
application logger. -/
theorem C6_min_severity_filtering_witness :
    (setup_logging ⟨"INFO", "json"⟩ LoggingState.initial =
        .ok ⟨20, [⟨20, FormatterKind.json⟩], [("uvicorn.access", 30), ("uvicorn.error", 20)]⟩
      ∧ checkLevel (getattrLoggingLevel (pyUpper "INFO")) = .ok 20
      ∧ (makeRecord "app.routers.email_suppression" 20 "Checking suppression" none none).name ≠
          "uvicorn.access"
      ∧ (makeRecord "app.routers.email_suppression" 20 "Checking suppression" none none).name ≠
          "uvicorn.error")
    ∧ (((makeRecord "app.routers.email_suppression" 20 "Checking suppression" none none).levelno < 20 →
        emitLogCall ⟨20, [⟨20, FormatterKind.json⟩], [("uvicorn.access", 30), ("uvicorn.error", 20)]⟩
          "ts" none (makeRecord "app.routers.email_suppression" 20 "Checking suppression" none none) = [])
      ∧ (20 ≤ (makeRecord "app.routers.email_suppression" 20 "Checking suppression" none none).levelno →
          ∃ l, formatRecord (fmtOf ⟨"INFO", "json"⟩) "ts" none
              (makeRecord "app.routers.email_suppression" 20 "Checking suppression" none none) = .ok l
            ∧ emitLogCall ⟨20, [⟨20, FormatterKind.json⟩], [("uvicorn.access", 30), ("uvicorn.error", 20)]⟩
                "ts" none
                (makeRecord "app.routers.email_suppression" 20 "Checking suppression" none none) =
              [l ++ "\n"])) :=
  ⟨⟨rfl, rfl, by decide, by decide⟩,
    C6_min_severity_filtering ⟨"INFO", "json"⟩
      ⟨20, [⟨20, FormatterKind.json⟩], [("uvicorn.access", 30), ("uvicorn.error", 20)]⟩
      20 "ts" none (makeRecord "app.routers.email_suppression" 20 "Checking suppression" none none)
      rfl rfl (by decide) (by decide)
      (fun p hp => absurd hp (List.not_mem_nil p))⟩


/-- C7: when the handler raises, the middleware emits exactly one
ERROR-level event; its message is the fixed prefix followed by the failure
message (so it contains the failure message), its extras carry the method,
the path and the elapsed duration in ms, which is non-negative whenever the
exit clock sample is at least the entry sample, it carries the rendered
stack text, and the middleware re-raises the original failure unchanged. -/
theorem C7_error_event_and_reraise (rid method path : String)
    (clientHost : Option String) (t0 t1 : Int) (e tb : String) (h : t0 ≤ t1) :
    (log_requests rid method path clientHost t0 t1 (Except.error e) tb).result =
      Except.error e
    ∧ (∃ fr, ((log_requests rid method path clientHost t0 t1 (Except.error e) tb).events.filter
          (fun rec => 40 ≤ rec.levelno)) = [fr]
        ∧ fr.levelno = 40
        ∧ fr.message = "Request failed: " ++ e
        ∧ dictGet fr.attrs "method" = some (PyValue.str method)
        ∧ dictGet fr.attrs "path" = some (PyValue.str path)
        ∧ dictGet fr.attrs "duration_ms" = some (PyValue.int (t1 - t0))
        ∧ fr.excText = some tb)
    ∧ 0 ≤ t1 - t0 := by
  refine ⟨rfl, ⟨_, rfl, rfl, rfl, rfl, ?_, ?_, rfl⟩, Int.sub_nonneg.mpr h⟩
  · rfl
  · rfl

/-- Witness for C7: a handler failing with message boom after 5 ms. -/
theorem C7_error_event_and_reraise_witness :
    (0 : Int) ≤ 5
    ∧ ((log_requests "ab12cd34" "GET" "/api/v1/email-suppression/x" none 0 5
          (Except.error "boom") "Traceback (most recent call last)").result =
        Except.error "boom"
      ∧ (∃ fr, ((log_requests "ab12cd34" "GET" "/api/v1/email-suppression/x" none 0 5
            (Except.error "boom") "Traceback (most recent call last)").events.filter
              (fun rec => 40 ≤ rec.levelno)) = [fr]
          ∧ fr.levelno = 40
          ∧ fr.message = "Request failed: " ++ "boom"
          ∧ dictGet fr.attrs "method" = some (PyValue.str "GET")
          ∧ dictGet fr.attrs "path" = some (PyValue.str "/api/v1/email-suppression/x")
          ∧ dictGet fr.attrs "duration_ms" = some (PyValue.int (5 - 0))
          ∧ fr.excText = some "Traceback (most recent call last)")
      ∧ (0 : Int) ≤ 5 - 0) :=
  ⟨by decide,
    C7_error_event_and_reraise "ab12cd34" "GET" "/api/v1/email-suppression/x" none 0 5
      "boom" "Traceback (most recent call last)" (by decide)⟩

/-- C8 is right and the code is wrong: the log level string basic_format
does not name a severity, yet it does not fall back to INFO — the getattr
lookup resolves it to the BASIC_FORMAT format-string attribute of the
logging module, and setLevel then raises ValueError, failing startup. -/
theorem C8_basic_format_startup_failure :
    setup_logging ⟨"basic_format", "json"⟩ LoggingState.initial =
      Except.error ("Unknown level: " ++ "%(levelname)s:%(name)s:%(message)s") := by
  rfl

/-- C9: an extra field supplied at the call through the logger adapter ends
up as a top-level key of the JSON object with its own value, never nested,
for any key that the exception field does not overwrite afterwards. -/
theorem C9_extras_merged_top_level (context callExtra : PyDict)
    (name now msg : String) (lvl : Nat) (rid : Option String)
    (excText : Option String) (k : String) (v : PyValue)
    (hnd : (dictKeys callExtra).Nodup)
    (hget : dictGet callExtra k = some v)
    (hk : k ≠ "exception") :
    dictGet (buildLogData now rid
      (adapterCallRecord context name lvl msg (some callExtra) excText)) k = some v := by
  cases excText with
  | none =>
    simp only [adapterCallRecord, LoggerAdapter.process, makeRecord, buildLogData]
    exact dictGet_dictUpdate_mem _ _ _ _ hnd hget
  | some tb =>
    simp only [adapterCallRecord, LoggerAdapter.process, makeRecord, buildLogData]
    rw [dictGet_dictSet_ne _ _ _ _ hk]
    exact dictGet_dictUpdate_mem _ _ _ _ hnd hget

/-- Witness for C9: the email extra of the spec example surfaces top-level. -/
theorem C9_extras_merged_top_level_witness :
    ((dictKeys [("email", PyValue.str "a@b.com")]).Nodup
      ∧ dictGet [("email", PyValue.str "a@b.com")] "email" = some (PyValue.str "a@b.com")
      ∧ "email" ≠ "exception")
    ∧ dictGet (buildLogData "ts" none
        (adapterCallRecord [] "app.services.oci_email_suppression" 20
          "Checking suppression" (some [("email", PyValue.str "a@b.com")]) none))
        "email" = some (PyValue.str "a@b.com") :=
  ⟨⟨by decide, rfl, by decide⟩,
    C9_extras_merged_top_level [] [("email", PyValue.str "a@b.com")]
      "app.services.oci_email_suppression" "ts" "Checking suppression" 20 none none
      "email" (PyValue.str "a@b.com") (by decide) rfl (by decide)⟩

/-- C10: the context supplied when the adapter is constructed is never
included in an emitted record: process ignores it entirely (two adapters
with different contexts process identically), and a context key absent from
the per-call extras and distinct from the structural keys is absent from
the emitted object. -/
theorem C10_construction_context_ignored (c1 c2 : PyDict)
    (name now msg : String) (lvl : Nat) (rid : Option String)
    (kwargsExtra : Option PyDict) (excText : Option String) (k : String)
    (_hk1 : k ∈ dictKeys c1)
    (hk2 : ¬ k ∈ dictKeys (kwargsExtra.getD []))
    (hk3 : ¬ k ∈ (["timestamp", "level", "logger", "message", "request_id",
        "exception"] : List String)) :
    LoggerAdapter.process c1 msg kwargsExtra = LoggerAdapter.process c2 msg kwargsExtra
    ∧ dictGet (buildLogData now rid
        (adapterCallRecord c1 name lvl msg kwargsExtra excText)) k = none := by
  simp only [List.mem_cons, List.not_mem_nil, or_false, not_or] at hk3
  obtain ⟨n1, n2, n3, n4, n5, n6⟩ := hk3
  have hd0 : dictGet [("timestamp", PyValue.str now),
      ("level", PyValue.str (getLevelName lvl)),
      ("logger", PyValue.str name),
      ("message", PyValue.str msg)] k = none := by
    simp only [dictGet]
    rw [if_neg (fun hc => n1 hc.symm), if_neg (fun hc => n2 hc.symm),
      if_neg (fun hc => n3 hc.symm), if_neg (fun hc => n4 hc.symm)]
  have hbase : dictGet (if pyTruthy rid then
      dictSet [("timestamp", PyValue.str now),
        ("level", PyValue.str (getLevelName lvl)),
        ("logger", PyValue.str name),
        ("message", PyValue.str msg)] "request_id" (PyValue.str (rid.getD ""))
      else [("timestamp", PyValue.str now),
        ("level", PyValue.str (getLevelName lvl)),
        ("logger", PyValue.str name),
        ("message", PyValue.str msg)]) k = none := by
    by_cases ht : pyTruthy rid
    · rw [if_pos ht, dictGet_dictSet_ne _ _ _ _ n5]
      exact hd0
    · rw [if_neg ht]
      exact hd0
  refine ⟨rfl, ?_⟩
  cases excText with
  | none =>
    simp only [adapterCallRecord, LoggerAdapter.process, makeRecord, Option.getD_some,
      buildLogData]
    rw [dictGet_dictUpdate_not_mem _ _ _ hk2]
    exact hbase
  | some tb =>
    simp only [adapterCallRecord, LoggerAdapter.process, makeRecord, Option.getD_some,
      buildLogData]
    rw [dictGet_dictSet_ne _ _ _ _ n6, dictGet_dictUpdate_not_mem _ _ _ hk2]
    exact hbase

/-- Witness for C10: a construction-time email context never reaches the
output of a call that only passes an operation extra. -/
theorem C10_construction_context_ignored_witness :
    ("email" ∈ dictKeys [("email", PyValue.str "u@v.w")]
      ∧ ¬ "email" ∈ dictKeys ((some [("operation", PyValue.str "check")]).getD [])
      ∧ ¬ "email" ∈ (["timestamp", "level", "logger", "message", "request_id",
          "exception"] : List String))
    ∧ (LoggerAdapter.process [("email", PyValue.str "u@v.w")] "Checking suppression"
          (some [("operation", PyValue.str "check")]) =
        LoggerAdapter.process [] "Checking suppression"
          (some [("operation", PyValue.str "check")])
      ∧ dictGet (buildLogData "ts" none
          (adapterCallRecord [("email", PyValue.str "u@v.w")]
            "app.services.oci_email_suppression" 20 "Checking suppression"
            (some [("operation", PyValue.str "check")]) none)) "email" = none) :=
  ⟨⟨by decide, by decide, by decide⟩,
    C10_construction_context_ignored [("email", PyValue.str "u@v.w")] []
      "app.services.oci_email_suppression" "ts" "Checking suppression" 20 none
      (some [("operation", PyValue.str "check")]) none "email"
      (by decide) (by decide) (by decide)⟩


end Automaion
